import Mathlib

/-!
Verification development for the ddt-3d landing-page scripts.

The repository consists of near-duplicate Three.js landing-page scripts.
`src/script.js` holds three variants (separated by document markers); the
fourth variant is the unnamed file `src/unnamed/part_000`.  The claims
concern the camera-rig / interaction-state controller (auto-rotate flag,
idle-resume timer, azimuth integration, touch-drag handlers), the one-shot
bounding-volume normalization at load completion, the polar-angle clamps,
the error path of asset loading, and the resize handler.

Modelling conventions:
  * JavaScript numbers are modelled as exact rationals (ℚ).  `Math.sin` and
    `Math.cos` are abstract rational-valued function parameters bundled in
    `Config`; no claim depends on their values.  `Math.PI / 2` is modelled
    by the exact rational value of the IEEE-754 double `Math.PI` divided
    by two (`jsHalfPi`).
  * `setTimeout` / `clearTimeout` are modelled by a list of pending timer
    ids plus a variable holding the last returned id; a `timerFire i`
    event runs the callback of timer `i` when `i` is still pending.  The
    numeric delays (2000 ms in script.js, 5000 ms in part_000) are recorded
    as constants but play no role: claims are about ordering, not time.
  * The first script.js variant reads `controls.isUserInteracting`, a
    property that Three.js OrbitControls does not define and that nothing
    in the repository ever assigns; the access therefore always yields
    `undefined`, which is falsy.  It is modelled by the constant `false`.
-/

namespace DDT

/-- Abstract trigonometric functions standing for `Math.sin` / `Math.cos`.
The camera x/z position fields are the only consumers of their values. -/
structure Config where
  sinFn : ℚ → ℚ
  cosFn : ℚ → ℚ

/-- A concrete instantiation of the abstract trig functions, used to
evaluate the machine on closed inputs (the claims never depend on the
trig values). -/
def cfg0 : Config := { sinFn := fun _ => 0, cosFn := fun _ => 1 }

/-- Models the read of `controls.isUserInteracting` in the first
script.js variant: OrbitControls defines no such property and no code in
the repository assigns it, so every read yields `undefined`, i.e. falsy. -/
def isUserInteracting : Bool := false

/-- The `setTimeout` delay used by the mouseup/touchend handlers of
script.js (milliseconds).  Untimed model: recorded for reference only. -/
def resumeDelayMs : ℚ := 2000

/-- The `setTimeout` delay used by `resetAutoRotate` in part_000
(milliseconds).  Untimed model: recorded for reference only. -/
def resumeDelayMsP0 : ℚ := 5000

/-- State of the first script.js variant: the rig fields (auto-rotate
flag, azimuth accumulator `currentYRotation`, camera position, touch
bookkeeping), the timer system (`pending` ids, the `interactionTimeout`
variable, a fresh-id counter), the `isInteracting` flag of the animate
loop, and the camera-aspect / renderer-size fields touched by resize. -/
structure ScriptState where
  autoRotate : Bool
  autoRotateSpeed : ℚ
  currentYRotation : ℚ
  camX : ℚ
  camY : ℚ
  camZ : ℚ
  touchStartX : ℚ
  touchCurrentX : ℚ
  isInteracting : Bool
  pending : List Nat
  interactionTimeout : Option Nat
  nextId : Nat
  aspect : ℚ
  rendererW : ℚ
  rendererH : ℚ
  deriving DecidableEq, Repr

/-- Initial state of the first script.js variant: `autoRotate = true`,
`autoRotateSpeed = 2` (line 90 sets 3, line 94 overwrites with 2),
camera at (0, 0, 5), no pending timer, `interactionTimeout` undefined.
`w0`/`h0` are the container dimensions. -/
def init (w0 h0 : ℚ) : ScriptState where
  autoRotate := true
  autoRotateSpeed := 2
  currentYRotation := 0
  camX := 0
  camY := 0
  camZ := 5
  touchStartX := 0
  touchCurrentX := 0
  isInteracting := false
  pending := []
  interactionTimeout := none
  nextId := 0
  aspect := w0 / h0
  rendererW := w0
  rendererH := h0

/-- Events processed by the first script.js variant: one animation-loop
tick, the DOM listeners, a timer firing, and a window resize. -/
inductive Event
  | frame
  | mousedown
  | mousemove (clientX offsetCenter : ℚ)
  | mouseup
  | touchstart (x : ℚ)
  | touchmove (x : ℚ)
  | touchend
  | timerFire (i : Nat)
  | resize (w h : ℚ)
  deriving DecidableEq, Repr

/-- Models `clearTimeout(v)` for a variable `v` that may still be
`undefined` (`none`): cancels (removes from the pending list) the timer
whose id the variable holds, if any. -/
def clearTO (v : Option Nat) (pending : List Nat) : List Nat :=
  match v with
  | none => pending
  | some i => pending.erase i

/-- Models the shared body of the mouseup/touchend listeners of
script.js (and, with the longer delay, `resetAutoRotate` of part_000):
`clearTimeout(interactionTimeout); interactionTimeout = setTimeout(...)`.
`setTimeout` returns a fresh id and schedules it. -/
def armTimer (s : ScriptState) : ScriptState :=
  let p := clearTO s.interactionTimeout s.pending
  { s with
      pending := p ++ [s.nextId]
      interactionTimeout := some s.nextId
      nextId := s.nextId + 1 }

/-- One step of the first script.js variant, translated handler by
handler from the source:
  * `frame` is one body of `animate()` (lines 155-174): the
    `isUserInteracting`/`isInteracting` bookkeeping, then the auto-rotate
    increment `currentYRotation += autoRotateSpeed * 0.01` with the camera
    position recomputed as `sin/cos(currentYRotation) * 5`;
  * `mousedown` (line 99) sets `currentYRotation = camera.position.x`;
  * `mousemove` (lines 103-114) is guarded by `controls.isUserInteracting`,
    which is always falsy;
  * `mouseup`/`touchend` (lines 180-192) cancel-then-rearm the resume
    timer whose callback sets `controls.autoRotate = true`;
  * `touchstart` (lines 198-201) records the touch x and sets
    `controls.autoRotate = false`;
  * `touchmove` (lines 203-211) adds `((x - touchStartX) / 50) * 0.05` to
    `currentYRotation`, recomputes the camera position and resets
    `touchStartX` to the current position;
  * `timerFire i` runs the callback of timer `i` if it is still pending;
  * `resize` (lines 237-241) refreshes `camera.aspect` and the renderer
    draw-buffer size. -/
def step (cfg : Config) (e : Event) (s : ScriptState) : ScriptState :=
  match e with
  | .frame =>
      let s1 :=
        if isUserInteracting then
          { s with isInteracting := true, autoRotate := false }
        else if s.isInteracting then
          { s with isInteracting := false }
        else s
      if s1.autoRotate && !isUserInteracting then
        let az := s1.currentYRotation + s1.autoRotateSpeed * (1 / 100)
        { s1 with
            currentYRotation := az
            camX := cfg.sinFn az * 5
            camZ := cfg.cosFn az * 5 }
      else s1
  | .mousedown => { s with currentYRotation := s.camX }
  | .mousemove clientX offsetCenter =>
      if isUserInteracting then
        let az := (clientX - offsetCenter) / 200
        { s with
            currentYRotation := az
            camX := cfg.sinFn az * 5
            camZ := cfg.cosFn az * 5 }
      else s
  | .mouseup => armTimer s
  | .touchstart x => { s with touchStartX := x, autoRotate := false }
  | .touchmove x =>
      let d := (x - s.touchStartX) / 50
      let az := s.currentYRotation + d * (1 / 20)
      { s with
          touchCurrentX := x
          currentYRotation := az
          camX := cfg.sinFn az * 5
          camZ := cfg.cosFn az * 5
          touchStartX := x }
  | .touchend => armTimer s
  | .timerFire i =>
      if i ∈ s.pending then
        { s with pending := s.pending.erase i, autoRotate := true }
      else s
  | .resize w h =>
      { s with aspect := w / h, rendererW := w, rendererH := h }

/-- Runs a list of events through the first script.js variant. -/
def run (cfg : Config) (evs : List Event) (s : ScriptState) : ScriptState :=
  evs.foldl (fun t e => step cfg e t) s

/-! ### part_000: the unnamed variant

`src/unnamed/part_000` drives the camera through plain OrbitControls
(`controls.update()` each frame is library code, an external collaborator
in the spec's terms); the repository's own state there is the
`controls.autoRotate` flag, the `autoRotateTimeout` timer variable and the
camera-aspect / renderer-size fields of `onWindowResize`. -/

/-- State owned by part_000's own code: the auto-rotate flag, the timer
system around `autoRotateTimeout`, and the resize consumers. -/
structure P0State where
  autoRotate : Bool
  pending : List Nat
  autoRotateTimeout : Option Nat
  nextId : Nat
  aspect : ℚ
  rendererW : ℚ
  rendererH : ℚ
  deriving DecidableEq, Repr

/-- Initial part_000 state after `init()`: `controls.autoRotate = true`
(line 80), no pending timer, aspect and renderer size from the container
dimensions `w0`/`h0`. -/
def initP0 (w0 h0 : ℚ) : P0State where
  autoRotate := true
  pending := []
  autoRotateTimeout := none
  nextId := 0
  aspect := w0 / h0
  rendererW := w0
  rendererH := h0

/-- Events handled by part_000's own listeners. -/
inductive P0Event
  | mousedown
  | touchstart
  | mouseup
  | touchend
  | timerFire (i : Nat)
  | resize (w h : ℚ)
  deriving DecidableEq, Repr

/-- Models `resetAutoRotate` (part_000 lines 109-114):
`clearTimeout(autoRotateTimeout); autoRotateTimeout = setTimeout(...)`,
the callback setting `controls.autoRotate = true` after 5000 ms. -/
def resetAutoRotate (s : P0State) : P0State :=
  let p := clearTO s.autoRotateTimeout s.pending
  { s with
      pending := p ++ [s.nextId]
      autoRotateTimeout := some s.nextId
      nextId := s.nextId + 1 }

/-- One step of part_000: `mousedown`/`touchstart` (lines 99-105) set
`controls.autoRotate = false` and touch nothing else (in particular they
do not clear the pending timer); `mouseup`/`touchend` (lines 116-117)
call `resetAutoRotate`; `timerFire i` runs the callback of timer `i` when
still pending; `resize` is `onWindowResize` (lines 204-221), a no-op when
a container dimension is zero, else refreshing aspect and renderer size. -/
def stepP0 (e : P0Event) (s : P0State) : P0State :=
  match e with
  | .mousedown => { s with autoRotate := false }
  | .touchstart => { s with autoRotate := false }
  | .mouseup => resetAutoRotate s
  | .touchend => resetAutoRotate s
  | .timerFire i =>
      if i ∈ s.pending then
        { s with pending := s.pending.erase i, autoRotate := true }
      else s
  | .resize w h =>
      if w = 0 ∨ h = 0 then s
      else { s with aspect := w / h, rendererW := w, rendererH := h }

/-- Runs a list of events through part_000. -/
def runP0 (evs : List P0Event) (s : P0State) : P0State :=
  evs.foldl (fun t e => stepP0 e t) s

/-! ### Load-completion normalization (script.js onComplete callbacks) -/

/-- A rational 3-vector standing for a THREE.Vector3. -/
structure Vec3 where
  x : ℚ
  y : ℚ
  z : ℚ
  deriving DecidableEq, Repr

/-- Componentwise subtraction, modelling `Vector3.sub`. -/
def vsub (a b : Vec3) : Vec3 := ⟨a.x - b.x, a.y - b.y, a.z - b.z⟩

/-- Componentwise negation. -/
def vneg (a : Vec3) : Vec3 := ⟨-a.x, -a.y, -a.z⟩

/-- Models `Math.max(size.x, size.y, size.z)` on the bounding-box size. -/
def maxDim (size : Vec3) : ℚ := max size.x (max size.y size.z)

/-- JavaScript division with the non-finite results made explicit:
dividing by zero yields Infinity (or NaN for 0/0), never a finite number;
both are modelled as `none`.  Any division by a nonzero rational is the
exact rational quotient. -/
def jsDiv (a b : ℚ) : Option ℚ :=
  if b = 0 then none else some (a / b)

/-- Result of the one-shot load normalization: the model position after
`model.position.sub(center)` and the uniform scale passed to
`model.scale.setScalar`. -/
structure LoadedTransform where
  position : Vec3
  scale : Option ℚ
  deriving DecidableEq, Repr

/-- Models the onComplete callback of `loader.load` (script.js lines
125-133 and the parallel variants at lines 326-334 / 495-503): compute
the bounding-box `center` and `size`, translate the model position by
`-center`, and set the uniform scale to `target / maxDim size` with
JavaScript division semantics (`target` is 4.5, 3 or 4.5 across the
variants; the division has no guard in the source). -/
def normalizeOnLoad (target : ℚ) (pos center size : Vec3) : LoadedTransform where
  position := vsub pos center
  scale := jsDiv target (maxDim size)

/-! ### Polar-angle clamps of the vertical-only variants -/

/-- The exact rational value of the IEEE-754 double `Math.PI / 2`
(`Math.PI` is 884279719003555 * 2 ^ (-48)). -/
def jsHalfPi : ℚ := 884279719003555 / 562949953421312

/-- Models the `controls.addEventListener('change', ...)` body of the
third script.js variant (lines 479-484): the polar angle is reset to
π/2 only when it deviates from π/2 by more than 0.3. -/
def changeClamp (p : ℚ) : ℚ :=
  if 3 / 10 < |p - jsHalfPi| then jsHalfPi else p

/-- Models `VerticalOrbitControls.update` (script.js lines 72-82, first
variant): azimuthal angle forced to 0, polar angle forced to π/2 whenever
it differs.  Input and output are the (azimuth, polar) pair.  Note the
class is declared at line 66 but never instantiated: line 86 constructs a
plain OrbitControls instead. -/
def verticalUpdate (azimuth polar : ℚ) : ℚ × ℚ :=
  (0, if polar ≠ jsHalfPi then jsHalfPi else polar)

/-- Models the `gesturestart` listener of the third script.js variant
(lines 567-569): the handler assigns `controls.autoRotate = false`
regardless of the previous flag value. -/
def gestureStartAutoRotate (oldFlag : Bool) : Bool := false

/-! ### Asset-load failure surfacing -/

/-- Visible state of the loading indicator (the `loading-screen` element
of script.js, the `loading-spinner` element of part_000). -/
inductive Indicator
  | showing
  | hidden
  | errorText
  deriving DecidableEq, Repr

/-- Models `loadingManager.onError` of script.js (lines 20-23): the
loading screen's innerHTML is replaced with an error paragraph. -/
def loadingManagerOnError (ind : Indicator) : Indicator := Indicator.errorText

/-- Models `finishLoading` of part_000 (lines 178-188): the spinner is
faded out and display set to none, i.e. hidden. -/
def finishLoading (ind : Indicator) : Indicator := Indicator.hidden

/-- Models the OBJ-load error callback of part_000 (lines 151-154):
`console.error` then `finishLoading()`. -/
def part000ObjError (ind : Indicator) : Indicator := finishLoading ind

/-- Models the MTL-load error callback of part_000 (lines 155-158):
`console.error` then `finishLoading()`. -/
def part000MtlError (ind : Indicator) : Indicator := finishLoading ind

/-- The externally visible actions a load-error callback can perform in
this repository. -/
inductive LoadAction
  | logError
  | hideSpinner
  | setErrorText
  | startLoad
  deriving DecidableEq, Repr

/-- Action trace of part_000's OBJ error callback: log, then hide the
spinner via `finishLoading`; no new load is started. -/
def part000ObjErrorActions : List LoadAction :=
  [LoadAction.logError, LoadAction.hideSpinner]

/-- Action trace of part_000's MTL error callback. -/
def part000MtlErrorActions : List LoadAction :=
  [LoadAction.logError, LoadAction.hideSpinner]

/-- Action trace of a script.js load failure: the per-load error callback
logs, and `loadingManager.onError` replaces the loading screen with error
text; no new load is started. -/
def scriptErrorActions : List LoadAction :=
  [LoadAction.logError, LoadAction.setErrorText]

/-! ## Helper lemmas -/

/-- Invariant of the script.js timer system: either no timer is pending,
or exactly one is pending and the `interactionTimeout` variable holds its
id. -/
def TimerInv (s : ScriptState) : Prop :=
  s.pending = [] ∨ ∃ i, s.pending = [i] ∧ s.interactionTimeout = some i

/-- Invariant of the part_000 timer system. -/
def TimerInvP0 (s : P0State) : Prop :=
  s.pending = [] ∨ ∃ i, s.pending = [i] ∧ s.autoRotateTimeout = some i

lemma clearTO_eq_nil (v : Option Nat) (p : List Nat)
    (h : p = [] ∨ ∃ i, p = [i] ∧ v = some i) : clearTO v p = [] := by
  rcases h with h | ⟨i, hp, hv⟩
  · subst h
    cases v <;> simp [clearTO]
  · subst hp
    subst hv
    simp [clearTO]

lemma timerInv_armTimer (s : ScriptState) (h : TimerInv s) :
    TimerInv (armTimer s) := by
  right
  exact ⟨s.nextId, by simp [armTimer, clearTO_eq_nil s.interactionTimeout s.pending h], rfl⟩

lemma frame_timer_fields (cfg : Config) (s : ScriptState) :
    (step cfg Event.frame s).pending = s.pending ∧
      (step cfg Event.frame s).interactionTimeout = s.interactionTimeout := by
  unfold step
  by_cases hI : s.isInteracting <;>
    by_cases hA : s.autoRotate <;>
      simp [isUserInteracting, hI, hA]

lemma timerInv_step (cfg : Config) (e : Event) (s : ScriptState)
    (h : TimerInv s) : TimerInv (step cfg e s) := by
  cases e with
  | frame =>
      obtain ⟨hp, ht⟩ := frame_timer_fields cfg s
      unfold TimerInv at h ⊢
      rw [hp, ht]
      exact h
  | mousedown => exact h
  | mousemove clientX offsetCenter =>
      simpa [step, isUserInteracting] using h
  | mouseup => exact timerInv_armTimer s h
  | touchstart x => exact h
  | touchmove x => exact h
  | touchend => exact timerInv_armTimer s h
  | timerFire i =>
      by_cases hi : i ∈ s.pending
      · rcases h with h0 | ⟨j, hp, ht⟩
        · rw [h0] at hi
          simp at hi
        · have hij : i = j := by
            rw [hp] at hi
            simpa using hi
          subst hij
          left
          simp [step, hi, hp]
      · simpa [TimerInv, step, hi] using h
  | resize w h' => exact h

lemma timerInv_run (cfg : Config) (evs : List Event) (s : ScriptState)
    (h : TimerInv s) : TimerInv (run cfg evs s) := by
  induction evs generalizing s with
  | nil => exact h
  | cons e rest ih => exact ih (step cfg e s) (timerInv_step cfg e s h)

lemma timerInv_init (w0 h0 : ℚ) : TimerInv (init w0 h0) := Or.inl rfl

lemma timerInv_length {s : ScriptState} (h : TimerInv s) :
    s.pending.length ≤ 1 := by
  rcases h with h0 | ⟨i, hp, _⟩
  · simp [h0]
  · simp [hp]

lemma timerInvP0_resetAutoRotate (s : P0State) (h : TimerInvP0 s) :
    TimerInvP0 (resetAutoRotate s) := by
  right
  exact ⟨s.nextId, by simp [resetAutoRotate, clearTO_eq_nil s.autoRotateTimeout s.pending h], rfl⟩

lemma timerInvP0_step (e : P0Event) (s : P0State)
    (h : TimerInvP0 s) : TimerInvP0 (stepP0 e s) := by
  cases e with
  | mousedown => exact h
  | touchstart => exact h
  | mouseup => exact timerInvP0_resetAutoRotate s h
  | touchend => exact timerInvP0_resetAutoRotate s h
  | timerFire i =>
      by_cases hi : i ∈ s.pending
      · rcases h with h0 | ⟨j, hp, ht⟩
        · rw [h0] at hi
          simp at hi
        · have hij : i = j := by
            rw [hp] at hi
            simpa using hi
          subst hij
          left
          simp [stepP0, hi, hp]
      · simpa [TimerInvP0, stepP0, hi] using h
  | resize w h' =>
      by_cases hz : w = 0 ∨ h' = 0
      · simpa [TimerInvP0, stepP0, hz] using h
      · simpa [TimerInvP0, stepP0, hz] using h

lemma timerInvP0_run (evs : List P0Event) (s : P0State)
    (h : TimerInvP0 s) : TimerInvP0 (runP0 evs s) := by
  induction evs generalizing s with
  | nil => exact h
  | cons e rest ih => exact ih (stepP0 e s) (timerInvP0_step e s h)

lemma timerInvP0_length {s : P0State} (h : TimerInvP0 s) :
    s.pending.length ≤ 1 := by
  rcases h with h0 | ⟨i, hp, _⟩
  · simp [h0]
  · simp [hp]

lemma frame_cy_of_autoRotate (cfg : Config) (s : ScriptState)
    (h : s.autoRotate = true) :
    (step cfg Event.frame s).currentYRotation
        = s.currentYRotation + s.autoRotateSpeed * (1 / 100) ∧
      (step cfg Event.frame s).autoRotate = true ∧
      (step cfg Event.frame s).autoRotateSpeed = s.autoRotateSpeed := by
  unfold step
  by_cases hI : s.isInteracting <;> simp [isUserInteracting, hI, h]

lemma run_frames_cy (cfg : Config) (N : Nat) (s : ScriptState)
    (h : s.autoRotate = true) :
    (run cfg (List.replicate N Event.frame) s).currentYRotation
      = s.currentYRotation + N * (s.autoRotateSpeed * (1 / 100)) := by
  induction N generalizing s with
  | zero => simp [run]
  | succ n ih =>
      obtain ⟨hcy, hA, hsp⟩ := frame_cy_of_autoRotate cfg s h
      have hrun : run cfg (List.replicate (n + 1) Event.frame) s
          = run cfg (List.replicate n Event.frame) (step cfg Event.frame s) := by
        rw [List.replicate_succ]
        rfl
      rw [hrun, ih (step cfg Event.frame s) hA, hcy, hsp]
      push_cast
      ring

lemma run_touchmoves (cfg : Config) (xs : List ℚ) (s : ScriptState) :
    (run cfg (xs.map Event.touchmove) s).currentYRotation
        = s.currentYRotation
            + (xs.getLastD s.touchStartX - s.touchStartX) * (1 / 20) / 50 ∧
      (run cfg (xs.map Event.touchmove) s).touchStartX
        = xs.getLastD s.touchStartX := by
  induction xs generalizing s with
  | nil =>
      constructor
      · simp [run]
      · simp [run]
  | cons x rest ih =>
      have h1 : run cfg ((x :: rest).map Event.touchmove) s
          = run cfg (rest.map Event.touchmove) (step cfg (Event.touchmove x) s) := rfl
      obtain ⟨ihc, iht⟩ := ih (step cfg (Event.touchmove x) s)
      have htsx : (step cfg (Event.touchmove x) s).touchStartX = x := rfl
      have hcy : (step cfg (Event.touchmove x) s).currentYRotation
          = s.currentYRotation + (x - s.touchStartX) / 50 * (1 / 20) := rfl
      constructor
      · rw [h1, ihc, hcy, htsx, List.getLastD_cons]
        ring
      · rw [h1, iht, htsx, List.getLastD_cons]

/-! ## Theorems -/

/-- C1 counterexample: from the initial state, a touch-end arms the
resume timer (id 0); a subsequent touch-start — a drag-start arriving in
Idle-Paused-AwaitingResume — leaves that timer pending instead of
cancelling it, and when the timer then fires during the drag it sets
`autoRotate` back to `true`. -/
theorem C1_counterexample :
    (run cfg0 [Event.touchend, Event.touchstart 10] (init 1 1)).pending = [0] ∧
      (run cfg0 [Event.touchend, Event.touchstart 10] (init 1 1)).autoRotate = false ∧
      (step cfg0 (Event.timerFire 0)
          (run cfg0 [Event.touchend, Event.touchstart 10] (init 1 1))).autoRotate
        = true := by
  refine ⟨?_, ?_, ?_⟩ <;> decide

/-- C1 amended: a drag-start does not cancel a pending resume timer.  A
touch-start only records the touch position and sets `autoRotate` to
`false`; a mouse-down touches the timer state even less (it only copies
`camera.position.x` into `currentYRotation`); the previously armed timer
stays pending, and firing it re-enables auto-rotation even though the
drag is still in progress. -/
theorem C1_amended_no_cancel (cfg : Config) (x : ℚ) (s : ScriptState)
    (i : Nat) (hi : i ∈ s.pending) :
    (step cfg (Event.touchstart x) s).pending = s.pending ∧
      (step cfg (Event.touchstart x) s).autoRotate = false ∧
      (step cfg Event.mousedown s).pending = s.pending ∧
      (step cfg (Event.timerFire i) (step cfg (Event.touchstart x) s)).autoRotate
        = true := by
  refine ⟨rfl, rfl, rfl, ?_⟩
  simp [step, hi]

/-- Witness for C1 amended: concrete run where touch-end armed timer 0
and the touch-start leaves it pending. -/
theorem C1_amended_no_cancel_witness :
    0 ∈ (run cfg0 [Event.touchend] (init 1 1)).pending ∧
      ((step cfg0 (Event.touchstart 10) (run cfg0 [Event.touchend] (init 1 1))).pending
          = (run cfg0 [Event.touchend] (init 1 1)).pending ∧
        (step cfg0 (Event.touchstart 10)
            (run cfg0 [Event.touchend] (init 1 1))).autoRotate = false ∧
        (step cfg0 Event.mousedown (run cfg0 [Event.touchend] (init 1 1))).pending
          = (run cfg0 [Event.touchend] (init 1 1)).pending ∧
        (step cfg0 (Event.timerFire 0)
            (step cfg0 (Event.touchstart 10)
              (run cfg0 [Event.touchend] (init 1 1)))).autoRotate = true) :=
  ⟨by decide, C1_amended_no_cancel cfg0 10 _ 0 (by decide)⟩

/-- C2: after any event sequence from the initial state, at most one
resume timer is pending — in the first script.js variant (whose
mouseup/touchend handlers run `clearTimeout` before `setTimeout`) and in
part_000 (whose `resetAutoRotate` does the same). -/
theorem C2_at_most_one_timer (cfg : Config) (w0 h0 : ℚ)
    (evs : List Event) (evs0 : List P0Event) :
    (run cfg evs (init w0 h0)).pending.length ≤ 1 ∧
      (runP0 evs0 (initP0 w0 h0)).pending.length ≤ 1 :=
  ⟨timerInv_length (timerInv_run cfg evs (init w0 h0) (timerInv_init w0 h0)),
    timerInvP0_length (timerInvP0_run evs0 (initP0 w0 h0) (Or.inl rfl))⟩

/-- C3 counterexample: the stored azimuth is never normalized.  From the
initial state, 400 frames of auto-rotation leave `currentYRotation = 8`
(initial 0, increment `autoRotateSpeed * 0.01 = 0.02` per frame), and 8
does not lie in the interval [0, 2π) — so the stored angle is neither
kept in [0, 2π) nor equal to `(initial + N * delta) mod 2π`. -/
theorem C3_counterexample :
    ((run cfg0 (List.replicate 400 Event.frame) (init 1 1)).currentYRotation : ℝ)
        = 8 ∧
      ¬ (((run cfg0 (List.replicate 400 Event.frame)
            (init 1 1)).currentYRotation : ℝ) < 2 * Real.pi) := by
  have hq : (run cfg0 (List.replicate 400 Event.frame) (init 1 1)).currentYRotation
      = 8 := by
    rw [run_frames_cy cfg0 400 (init 1 1) rfl]
    norm_num [init]
  constructor
  · rw [hq]
    norm_num
  · rw [hq]
    push_cast
    intro hlt
    have hpi := Real.pi_lt_d2
    linarith

/-- C3 amended: while auto-rotating, after N frames the stored azimuth
equals exactly `initial + N * (autoRotateSpeed * 0.01)` — congruent to
the claimed value modulo 2π, but stored unnormalized (it grows without
bound instead of being reduced to [0, 2π)). -/
theorem C3_amended_azimuth (cfg : Config) (N : Nat) (s : ScriptState)
    (h : s.autoRotate = true) :
    (run cfg (List.replicate N Event.frame) s).currentYRotation
      = s.currentYRotation + N * (s.autoRotateSpeed * (1 / 100)) :=
  run_frames_cy cfg N s h

/-- Witness for C3 amended: three auto-rotating frames from the initial
state advance the azimuth to 0 + 3 * 0.02. -/
theorem C3_amended_azimuth_witness :
    (init 1 1).autoRotate = true ∧
      (run cfg0 (List.replicate 3 Event.frame) (init 1 1)).currentYRotation
        = (init 1 1).currentYRotation
            + (3 : Nat) * ((init 1 1).autoRotateSpeed * (1 / 100)) :=
  ⟨rfl, C3_amended_azimuth cfg0 3 (init 1 1) rfl⟩

/-- C4 counterexample: in the first script.js variant a pointer-down does
not suspend auto-rotation.  After a `mousedown`, `autoRotate` is still
`true` and the very next frame applies the automatic azimuth increment
(0 becomes 0.02), with no resume timer having fired in between. -/
theorem C4_counterexample :
    (run cfg0 [Event.mousedown] (init 1 1)).autoRotate = true ∧
      (run cfg0 [Event.mousedown] (init 1 1)).currentYRotation = 0 ∧
      (run cfg0 [Event.mousedown, Event.frame] (init 1 1)).currentYRotation
        = 1 / 50 := by
  refine ⟨rfl, by decide, ?_⟩
  have h2 : run cfg0 [Event.mousedown, Event.frame] (init 1 1)
      = step cfg0 Event.frame (step cfg0 Event.mousedown (init 1 1)) := rfl
  rw [h2, (frame_cy_of_autoRotate cfg0 (step cfg0 Event.mousedown (init 1 1)) rfl).1]
  show (0 : ℚ) + 2 * (1 / 100) = 1 / 50
  norm_num

/-- C4 amended: a touch-start sets `autoRotate := false` in the handler
itself, before the next animation frame, and while `autoRotate` is
`false` a frame applies no automatic azimuth increment (and leaves the
flag `false`); the gesture-start handler of the third variant likewise
assigns `false`.  A mouse-down in the first variant, however, does not
suspend auto-rotation (it neither clears `autoRotate` nor is
`controls.isUserInteracting` ever defined). -/
theorem C4_amended_suspension (cfg : Config) (x : ℚ) (s : ScriptState)
    (h : s.autoRotate = false) :
    (step cfg (Event.touchstart x) s).autoRotate = false ∧
      gestureStartAutoRotate s.autoRotate = false ∧
      (step cfg Event.frame s).currentYRotation = s.currentYRotation ∧
      (step cfg Event.frame s).autoRotate = false := by
  refine ⟨rfl, rfl, ?_, ?_⟩
  · unfold step
    by_cases hI : s.isInteracting <;> simp [isUserInteracting, hI, h]
  · unfold step
    by_cases hI : s.isInteracting <;> simp [isUserInteracting, hI, h]

/-- Witness for C4 amended: after a concrete touch-start, `autoRotate`
is `false` and the next frame leaves the azimuth unchanged. -/
theorem C4_amended_suspension_witness :
    (run cfg0 [Event.touchstart 10] (init 1 1)).autoRotate = false ∧
      ((step cfg0 (Event.touchstart 10)
            (run cfg0 [Event.touchstart 10] (init 1 1))).autoRotate = false ∧
        gestureStartAutoRotate
            (run cfg0 [Event.touchstart 10] (init 1 1)).autoRotate = false ∧
        (step cfg0 Event.frame
              (run cfg0 [Event.touchstart 10] (init 1 1))).currentYRotation
          = (run cfg0 [Event.touchstart 10] (init 1 1)).currentYRotation ∧
        (step cfg0 Event.frame
            (run cfg0 [Event.touchstart 10] (init 1 1))).autoRotate = false) :=
  ⟨by decide, C4_amended_suspension cfg0 10 _ (by decide)⟩

/-- C9: a resize event refreshes exactly the camera aspect ratio and the
renderer draw-buffer size; every rig field — azimuth accumulator, camera
position, auto-rotate flag, interaction flag, touch bookkeeping, pending
timers and the timer variable — is unchanged, in the first script.js
variant and in part_000. -/
theorem C9_resize_preserves_rig (cfg : Config) (w h : ℚ)
    (s : ScriptState) (s0 : P0State) :
    ((step cfg (Event.resize w h) s).currentYRotation = s.currentYRotation ∧
      (step cfg (Event.resize w h) s).camX = s.camX ∧
      (step cfg (Event.resize w h) s).camY = s.camY ∧
      (step cfg (Event.resize w h) s).camZ = s.camZ ∧
      (step cfg (Event.resize w h) s).autoRotate = s.autoRotate ∧
      (step cfg (Event.resize w h) s).autoRotateSpeed = s.autoRotateSpeed ∧
      (step cfg (Event.resize w h) s).isInteracting = s.isInteracting ∧
      (step cfg (Event.resize w h) s).touchStartX = s.touchStartX ∧
      (step cfg (Event.resize w h) s).touchCurrentX = s.touchCurrentX ∧
      (step cfg (Event.resize w h) s).pending = s.pending ∧
      (step cfg (Event.resize w h) s).interactionTimeout = s.interactionTimeout ∧
      (step cfg (Event.resize w h) s).aspect = w / h ∧
      (step cfg (Event.resize w h) s).rendererW = w ∧
      (step cfg (Event.resize w h) s).rendererH = h) ∧
    ((stepP0 (P0Event.resize w h) s0).autoRotate = s0.autoRotate ∧
      (stepP0 (P0Event.resize w h) s0).pending = s0.pending ∧
      (stepP0 (P0Event.resize w h) s0).autoRotateTimeout = s0.autoRotateTimeout) := by
  refine ⟨⟨rfl, rfl, rfl, rfl, rfl, rfl, rfl, rfl, rfl, rfl, rfl, rfl, rfl, rfl⟩,
    ?_, ?_, ?_⟩ <;>
    (by_cases hz : w = 0 ∨ h = 0 <;> simp [stepP0, hz])

/-- C10: the touch handlers telescope.  After a touch-start at `x0`
followed by touch-moves at positions `xs` (the last being `xn`, or `x0`
itself when there is no move), the azimuth accumulator has changed by
exactly `(xn - x0) * 0.05 / 50`: each move contributes
`((x_i - x_(i-1)) / 50) * 0.05` because `touchStartX` is reset to the
current position after every move, and the deltas cancel pairwise. -/
theorem C10_touch_telescoping (cfg : Config) (x0 : ℚ) (xs : List ℚ)
    (s : ScriptState) :
    (run cfg (Event.touchstart x0 :: xs.map Event.touchmove) s).currentYRotation
      = s.currentYRotation + (xs.getLastD x0 - x0) * (1 / 20) / 50 := by
  have h1 : run cfg (Event.touchstart x0 :: xs.map Event.touchmove) s
      = run cfg (xs.map Event.touchmove) (step cfg (Event.touchstart x0) s) := rfl
  have hcy : (step cfg (Event.touchstart x0) s).currentYRotation
      = s.currentYRotation := rfl
  have htsx : (step cfg (Event.touchstart x0) s).touchStartX = x0 := rfl
  rw [h1, (run_touchmoves cfg xs (step cfg (Event.touchstart x0) s)).1, hcy, htsx]

/-- C6: On load completion, bounding-volume normalization yields position
`-center` for a model initially at the origin, and uniform scale
`target / maxDim size`, whenever the maximum bounding-box dimension is
nonzero. -/
theorem C6_normalization (target : ℚ) (c s : Vec3) (h : maxDim s ≠ 0) :
    (normalizeOnLoad target ⟨0, 0, 0⟩ c s).position = vneg c ∧
      (normalizeOnLoad target ⟨0, 0, 0⟩ c s).scale = some (target / maxDim s) := by
  constructor
  · simp [normalizeOnLoad, vsub, vneg]
  · simp [normalizeOnLoad, jsDiv, h]

/-- Witness for C6 at the spec's own example: bounding box of size
(2,4,6), center (1,2,3), target size 3 gives position (-1,-2,-3) and
scale 3/6 = 1/2. -/
theorem C6_normalization_witness :
    maxDim ⟨2, 4, 6⟩ ≠ 0 ∧
      ((normalizeOnLoad 3 ⟨0, 0, 0⟩ ⟨1, 2, 3⟩ ⟨2, 4, 6⟩).position = vneg ⟨1, 2, 3⟩ ∧
        (normalizeOnLoad 3 ⟨0, 0, 0⟩ ⟨1, 2, 3⟩ ⟨2, 4, 6⟩).scale = some (3 / maxDim ⟨2, 4, 6⟩)) :=
  ⟨by decide, C6_normalization 3 ⟨1, 2, 3⟩ ⟨2, 4, 6⟩ (by decide)⟩

/-- C7 (code bug): the scale computation is NOT guarded against a
zero-size bounding volume.  For a degenerate box of size (0,0,0) the
source performs `4.5 / maxDim` with `maxDim = 0` unconditionally, which
in JavaScript yields a non-finite scale (modelled as `none`). -/
theorem C7_unguarded_division :
    (normalizeOnLoad (9 / 2) ⟨0, 0, 0⟩ ⟨0, 0, 0⟩ ⟨0, 0, 0⟩).scale = none := by
  decide

/-- C5 counterexample: the change-listener clamp of the third script.js
variant leaves a polar angle of π/2 + 0.2 untouched (the reset only
happens when the deviation exceeds 0.3), so the polar angle read back is
not exactly π/2. -/
theorem C5_counterexample :
    changeClamp (jsHalfPi + 1 / 5) = jsHalfPi + 1 / 5 ∧
      jsHalfPi + 1 / 5 ≠ jsHalfPi := by
  have e : jsHalfPi + 1 / 5 - jsHalfPi = 1 / 5 := by ring
  constructor
  · have h : ¬ (3 / 10 < |jsHalfPi + 1 / 5 - jsHalfPi|) := by
      rw [e, abs_of_nonneg (by norm_num : (0 : ℚ) ≤ 1 / 5)]
      norm_num
    unfold changeClamp
    rw [if_neg h]
  · norm_num

/-- C5 amended: the change listener only keeps the polar angle within
0.3 of π/2 (and only runs on change events), while the
`VerticalOrbitControls.update` clamp — in a class that is never
instantiated — would force the polar angle to exactly π/2 and the
azimuth to 0 on every update call. -/
theorem C5_amended_clamp (a p : ℚ) :
    |changeClamp p - jsHalfPi| ≤ 3 / 10 ∧
      (verticalUpdate a p).2 = jsHalfPi ∧ (verticalUpdate a p).1 = 0 := by
  refine ⟨?_, ?_, rfl⟩
  · unfold changeClamp
    by_cases h : 3 / 10 < |p - jsHalfPi|
    · rw [if_pos h, sub_self, abs_zero]
      norm_num
    · rw [if_neg h]
      exact not_lt.mp h
  · unfold verticalUpdate
    by_cases h : p = jsHalfPi <;> simp [h]

/-- C8 counterexample: in part_000 a model-load failure runs
`finishLoading`, which hides the loading spinner — the indicator is
neither left showing nor replaced with error text, so no visible error
message is surfaced there. -/
theorem C8_counterexample :
    part000ObjError Indicator.showing = Indicator.hidden ∧
      Indicator.hidden ≠ Indicator.showing ∧
      Indicator.hidden ≠ Indicator.errorText := by
  decide

/-- C8 amended: in the script.js variants a load failure replaces the
loading screen with error text, while in part_000 the error callbacks
hide the loading spinner exactly as on success (the error is only logged
to the console); no variant ever starts a new load attempt from an error
callback. -/
theorem C8_amended_error_surfacing (ind : Indicator) :
    loadingManagerOnError ind = Indicator.errorText ∧
      part000ObjError ind = Indicator.hidden ∧
      part000MtlError ind = Indicator.hidden ∧
      LoadAction.startLoad ∉ part000ObjErrorActions ∧
      LoadAction.startLoad ∉ part000MtlErrorActions ∧
      LoadAction.startLoad ∉ scriptErrorActions := by
  refine ⟨rfl, rfl, rfl, ?_, ?_, ?_⟩ <;> decide

end DDT
